import Mathlib

/-!
Verification development for the game-audio engine: handle registry,
mixing groups, fade engine, sound instances, layered tracks, random
sound containers and the spatial attenuation model.  The engine core is
a C++ component; every definition below is modelled from the repository
specification (spec.md) and, where the specification defers, from the
behaviour documented by the repository's Python test suite.
-/

namespace GameAudio

/-- Modelled from the spec: the error taxonomy of section 7 —
`NotInitialized`, `InvalidHandle`, `FileLoad`, `InvalidArgument`, all
subtypes of one `AudioError` root. -/
inductive AudioError where
  | notInitialized
  | invalidHandle
  | fileLoad
  | invalidArgument
deriving DecidableEq, Repr

/-- Modelled from the spec: a handle is `{index: u32, generation: u32}`
(or a single packed integer). -/
structure Handle where
  index : Nat
  generation : Nat
deriving DecidableEq, Repr

/-- Modelled from the spec: the packed single-integer view of a handle,
as exposed to Python through the bindings' `.value` attribute. -/
def Handle.value (h : Handle) : Nat := h.generation * 2 ^ 32 + h.index

/-- Modelled from the spec: the Invalid handle sentinel (packed value 0). -/
def Handle.invalid : Handle := ⟨0, 0⟩

/-- Modelled from the spec: a registry slot stores its current generation
counter together with the payload; a free slot keeps its generation so a
later reallocation can bump it. -/
structure Slot (α : Type) where
  generation : Nat
  payload : Option α
deriving DecidableEq, Repr

/-- Modelled from the spec: the generational arena of section 4.1. -/
structure Registry (α : Type) where
  slots : List (Slot α)
deriving DecidableEq, Repr

namespace Registry

def empty {α : Type} : Registry α := ⟨[]⟩

/-- Modelled from the spec: `resolve(handle) -> slot | Invalid`; a handle
is valid iff its index is in range and the slot's stored generation
matches (stale or out-of-range handles fail, never undefined behavior). -/
def resolve {α : Type} (r : Registry α) (h : Handle) : Option α :=
  match r.slots[h.index]? with
  | some s => if s.generation = h.generation then s.payload else none
  | none => none

/-- Modelled from the spec: registry validation of a handle. -/
def valid {α : Type} (r : Registry α) (h : Handle) : Bool :=
  (r.resolve h).isSome

/-- Helper for allocation: reuse the first free slot (bumping its
generation) or append a new slot at the end. -/
def allocGo {α : Type} (a : α) : List (Slot α) → Nat → Handle × List (Slot α)
  | [], i => (⟨i, 1⟩, [⟨1, some a⟩])
  | s :: rest, i =>
    match s.payload with
    | none => (⟨i, s.generation + 1⟩, ⟨s.generation + 1, some a⟩ :: rest)
    | some _ =>
      let p := allocGo a rest (i + 1)
      (p.1, s :: p.2)

/-- Modelled from the spec: `allocate(kind) -> Handle`; allocation reuses
freed slots but always increments that slot's generation counter. -/
def alloc {α : Type} (r : Registry α) (a : α) : Handle × Registry α :=
  let p := allocGo a r.slots 0
  (p.1, ⟨p.2⟩)

/-- Modelled from the spec: `free(handle)` releases the slot's payload,
keeping the generation counter for the next allocation to bump. -/
def free {α : Type} (r : Registry α) (h : Handle) : Registry α :=
  match r.slots[h.index]? with
  | some s =>
    if s.generation = h.generation then ⟨r.slots.set h.index ⟨s.generation, none⟩⟩
    else r
  | none => r

/-- Helper: update the payload a valid handle resolves to, leaving
everything else untouched. -/
def update {α : Type} (r : Registry α) (h : Handle) (f : α → α) : Registry α :=
  match r.slots[h.index]? with
  | some s =>
    if s.generation = h.generation then
      ⟨r.slots.set h.index ⟨s.generation, s.payload.map f⟩⟩
    else r
  | none => r

/-- Helper: apply a function to every live payload (the mixer tick's
per-resource pass). -/
def mapAll {α : Type} (f : α → α) (r : Registry α) : Registry α :=
  ⟨r.slots.map fun s => ⟨s.generation, s.payload.map f⟩⟩

theorem resolve_update {α : Type} (r : Registry α) (h : Handle) (f : α → α) :
    (r.update h f).resolve h = (r.resolve h).map f := by
  unfold update resolve
  cases hs : r.slots[h.index]? with
  | none => simp [hs]
  | some s =>
    by_cases hg : s.generation = h.generation
    · have hlen : h.index < r.slots.length := by
        by_contra hc
        simp [List.getElem?_eq_none (Nat.le_of_not_lt hc)] at hs
      simp [hs, hg, List.getElem?_set_self, hlen]
    · simp [hs, hg]

theorem resolve_mapAll {α : Type} (r : Registry α) (h : Handle) (f : α → α) :
    (r.mapAll f).resolve h = (r.resolve h).map f := by
  unfold mapAll resolve
  cases hs : r.slots[h.index]? with
  | none => simp [List.getElem?_map, hs]
  | some s =>
    by_cases hg : s.generation = h.generation
    · simp [List.getElem?_map, hs, hg]
    · simp [List.getElem?_map, hs, hg]

theorem valid_false_iff {α : Type} (r : Registry α) (h : Handle) :
    r.valid h = false ↔ r.resolve h = none := by
  unfold valid
  cases hr : r.resolve h <;> simp [Option.isSome]

end Registry

/-- Modelled from the spec: linear interpolation used by the Fade Engine. -/
def lerp (a b t : ℚ) : ℚ := a + (b - a) * t

/-- Modelled from the spec: `FadeState = {startVolume, targetVolume,
startTime, duration}` (section 3). -/
structure FadeState where
  startVolume : ℚ
  targetVolume : ℚ
  startTime : ℚ
  duration : ℚ
deriving DecidableEq, Repr

/-- Modelled from the spec: the Fade Engine's per-tick update (section
4.4): with an active fade, if `elapsed = now - startTime >= duration`
set volume to the target and clear the fade, else set it to
`lerp(start, target, elapsed/duration)`; with no fade the volume is
left untouched. -/
def tickFade (now vol : ℚ) : Option FadeState → ℚ × Option FadeState
  | none => (vol, none)
  | some f =>
    if f.duration ≤ now - f.startTime then (f.targetVolume, none)
    else (lerp f.startVolume f.targetVolume ((now - f.startTime) / f.duration), some f)

/-- Modelled from the spec: a mixing group `{volume, fade}`; the parent
is implicitly the master group (single-level hierarchy). -/
structure Group where
  volume : ℚ
  fade : Option FadeState
deriving DecidableEq, Repr

/-- Modelled from the spec: 3D vector for positions. -/
structure Vec3 where
  x : ℚ
  y : ℚ
  z : ℚ
deriving DecidableEq, Repr

/-- Modelled from the spec: playback state of one instance. -/
inductive PlayState where
  | playing
  | stopped
deriving DecidableEq, Repr

/-- Modelled from the spec: `PlaybackInstance = {position, state}`
(backend handle and snapshots elided — the core never touches sample
data). -/
structure PlaybackInstance where
  position : Vec3
  state : PlayState
deriving DecidableEq, Repr

def PlaybackInstance.isPlaying (i : PlaybackInstance) : Bool :=
  match i.state with
  | .playing => true
  | .stopped => false

/-- Modelled from the spec: `SoundResource = {sourcePath, group,
baseVolume, position, instances}`; `group = none` means the implicit
master group. -/
structure SoundResource where
  sourcePath : String
  group : Option Handle
  volume : ℚ
  position : Vec3
  instances : List PlaybackInstance
deriving DecidableEq, Repr

/-- Modelled from the spec: one named layer of a track. -/
structure Layer where
  sourcePath : String
  volume : ℚ
  fade : Option FadeState
deriving DecidableEq, Repr

/-- Modelled from the spec: `AudioTrack = {layers (name unique), playing}`. -/
structure Track where
  layers : List (String × Layer)
  playing : Bool
deriving DecidableEq, Repr

/-- Modelled from the spec: the process-wide engine state — initialized
flag, master volume scalar, and the registries for groups, sounds and
tracks. -/
structure AudioManager where
  initialized : Bool
  masterVolume : ℚ
  groups : Registry Group
  sounds : Registry SoundResource
  tracks : Registry Track
deriving DecidableEq, Repr

namespace AudioManager

/-- Modelled from the spec: the state right after a successful
`initialize()` — fresh tables, master volume restored. -/
def fresh : AudioManager := ⟨true, 1, .empty, .empty, .empty⟩

/-- Modelled from the spec: the state after `shutdown()` — tables fully
reset, nothing initialized. -/
def uninit : AudioManager := ⟨false, 1, .empty, .empty, .empty⟩

def isInitialized (m : AudioManager) : Bool := m.initialized

end AudioManager

/-- Modelled from the spec (section 7): permissive numeric policy —
volumes are clamped, not rejected; per the volume-clamping test the
clamp range for group/sound/layer volumes is `[0, 1]`. -/
def clamp01 (v : ℚ) : ℚ := min 1 (max 0 v)

/-- Modelled from the spec: `initialize()` starts a new session when the
engine is not running (returning true) and is a no-op returning false
when it is already initialized. -/
def initEngine (m : AudioManager) : Bool × AudioManager :=
  if m.initialized then (false, m) else (true, .fresh)

/-- Modelled from the spec: `shutdown()` is idempotent and fully resets
group/track/sound tables. -/
def shutdown (_ : AudioManager) : AudioManager := .uninit

/-- Modelled from the spec: the scoped session helper calls
`initialize()` on creation. -/
def sessionOpen (m : AudioManager) : AudioManager := (initEngine m).2

/-- Modelled from the spec: the scoped session helper calls `shutdown()`
exactly once on release/close. -/
def sessionClose (m : AudioManager) : AudioManager := shutdown m

/-- Modelled from the spec: `set_master_volume` — a mutating call; the
master scalar is distinct from group volumes and is not clamped (the
backend accepts amplification and phase inversion). -/
def setMasterVolume (m : AudioManager) (v : ℚ) : Except AudioError AudioManager :=
  if m.initialized then .ok { m with masterVolume := v }
  else .error .notInitialized

def getMasterVolume (m : AudioManager) : Except AudioError ℚ :=
  if m.initialized then .ok m.masterVolume else .error .notInitialized

/-- Modelled from the spec: `create_group(name?) -> Handle`. -/
def createGroup (m : AudioManager) : Except AudioError (Handle × AudioManager) :=
  if m.initialized then
    let p := m.groups.alloc ⟨1, none⟩
    .ok (p.1, { m with groups := p.2 })
  else .error .notInitialized

/-- Modelled from the spec: `destroy_group(h)`. -/
def destroyGroup (m : AudioManager) (h : Handle) : Except AudioError AudioManager :=
  if m.initialized then
    match m.groups.resolve h with
    | some _ => .ok { m with groups := m.groups.free h }
    | none => .error .invalidHandle
  else .error .notInitialized

/-- Modelled from the spec: `set_group_volume(h, v)` clamps the volume
(per the volume-clamping test, to `[0, 1]`) and implicitly cancels any
in-flight fade (section 5). -/
def setGroupVolume (m : AudioManager) (h : Handle) (v : ℚ) :
    Except AudioError AudioManager :=
  if m.initialized then
    match m.groups.resolve h with
    | some _ => .ok { m with groups := m.groups.update h fun _g => ⟨clamp01 v, none⟩ }
    | none => .error .invalidHandle
  else .error .notInitialized

/-- Modelled from the spec: `get_group_volume(h) -> f32`. -/
def getGroupVolume (m : AudioManager) (h : Handle) : Except AudioError ℚ :=
  if m.initialized then
    match m.groups.resolve h with
    | some g => .ok g.volume
    | none => .error .invalidHandle
  else .error .notInitialized

/-- Modelled from the spec: `fade_group(h, target, duration)` — a
negative duration is a caller error (`InvalidArgument`); duration zero
jumps to the target immediately as a non-error convenience (section 3);
a positive duration installs a `FadeState`, replacing any active one
(last-writer-wins). -/
def fadeGroup (m : AudioManager) (h : Handle) (target dur now : ℚ) :
    Except AudioError AudioManager :=
  if m.initialized then
    match m.groups.resolve h with
    | some g =>
      if dur < 0 then .error .invalidArgument
      else if dur = 0 then
        .ok { m with groups := m.groups.update h fun _g => ⟨target, none⟩ }
      else
        .ok { m with groups :=
          m.groups.update h fun _g => ⟨g.volume, some ⟨g.volume, target, now, dur⟩⟩ }
    | none => .error .invalidHandle
  else .error .notInitialized

/-- Modelled from the spec: `load_sound(path, group?) -> Handle` creates
a `SoundResource` without starting playback; fails with `FileLoad` when
the backend cannot decode the path.  Per the repository's error-handling
test (test_load_sound_with_invalid_group), an invalid group argument is
silently ignored: the sound falls back to the master group. -/
def loadSound (decode : String → Bool) (m : AudioManager) (path : String)
    (g : Option Handle) : Except AudioError (Handle × AudioManager) :=
  if m.initialized then
    if decode path then
      let grp : Option Handle :=
        match g with
        | some gh => if m.groups.valid gh then some gh else none
        | none => none
      let p := m.sounds.alloc ⟨path, grp, 1, ⟨0, 0, 0⟩, []⟩
      .ok (p.1, { m with sounds := p.2 })
    else .error .fileLoad
  else .error .notInitialized

/-- Modelled from the spec: `play_sound(handle, position)` creates a new
`PlaybackInstance` at the given position without disturbing any
already-playing instance of the same resource (overlap contract). -/
def playSoundAt (m : AudioManager) (h : Handle) (pos : Vec3) :
    Except AudioError AudioManager :=
  if m.initialized then
    match m.sounds.resolve h with
    | some _ => .ok { m with sounds := m.sounds.update h fun r =>
        { r with instances := r.instances ++ [⟨pos, .playing⟩] } }
    | none => .error .invalidHandle
  else .error .notInitialized

/-- Modelled from the spec: `play_sound(handle)` starts the resource's
primary instance at its stored spatial position. -/
def playSound (m : AudioManager) (h : Handle) : Except AudioError AudioManager :=
  if m.initialized then
    match m.sounds.resolve h with
    | some r => playSoundAt m h r.position
    | none => .error .invalidHandle
  else .error .notInitialized

/-- Modelled from the spec: `stop_sound(handle)` stops all instances of
that resource. -/
def stopSound (m : AudioManager) (h : Handle) : Except AudioError AudioManager :=
  if m.initialized then
    match m.sounds.resolve h with
    | some _ => .ok { m with sounds := m.sounds.update h fun r =>
        { r with instances := r.instances.map fun i => { i with state := .stopped } } }
    | none => .error .invalidHandle
  else .error .notInitialized

/-- Modelled from the spec: a resource reports playing while any of its
instances runs. -/
def isSoundPlaying (m : AudioManager) (h : Handle) : Except AudioError Bool :=
  if m.initialized then
    match m.sounds.resolve h with
    | some r => .ok (r.instances.any PlaybackInstance.isPlaying)
    | none => .error .invalidHandle
  else .error .notInitialized

/-- Modelled from the spec: `set_sound_volume` acts on the resource's
stored parameters (clamped like other volumes). -/
def setSoundVolume (m : AudioManager) (h : Handle) (v : ℚ) :
    Except AudioError AudioManager :=
  if m.initialized then
    match m.sounds.resolve h with
    | some _ => .ok { m with sounds := m.sounds.update h fun r =>
        { r with volume := clamp01 v } }
    | none => .error .invalidHandle
  else .error .notInitialized

/-- Modelled from the spec: `set_sound_position` updates the resource's
stored position (live for the primary instance). -/
def setSoundPosition (m : AudioManager) (h : Handle) (p : Vec3) :
    Except AudioError AudioManager :=
  if m.initialized then
    match m.sounds.resolve h with
    | some _ => .ok { m with sounds := m.sounds.update h fun r =>
        { r with position := p } }
    | none => .error .invalidHandle
  else .error .notInitialized

/-- Modelled from the spec: `destroy_sound` stops and releases all of a
resource's instances. -/
def destroySound (m : AudioManager) (h : Handle) : Except AudioError AudioManager :=
  if m.initialized then
    match m.sounds.resolve h with
    | some _ => .ok { m with sounds := m.sounds.free h }
    | none => .error .invalidHandle
  else .error .notInitialized

/-- Modelled from the spec: `create_track() -> Handle`. -/
def createTrack (m : AudioManager) : Except AudioError (Handle × AudioManager) :=
  if m.initialized then
    let p := m.tracks.alloc ⟨[], false⟩
    .ok (p.1, { m with tracks := p.2 })
  else .error .notInitialized

/-- Helper: install a layer under a name, overwriting a prior layer of
the same name (section 4.4's duplicate-name policy). -/
def putLayer (name : String) (l : Layer) :
    List (String × Layer) → List (String × Layer)
  | [] => [(name, l)]
  | (n, l0) :: rest =>
    if n = name then (name, l) :: rest else (n, l0) :: putLayer name l rest

/-- Modelled from the spec: `add_layer(track, name, path, group?)` —
`InvalidHandle` for a bad track handle, `InvalidArgument` for an empty
name or path, `FileLoad` when the path cannot be decoded; re-adding an
existing name overwrites the prior layer. -/
def addLayer (decode : String → Bool) (m : AudioManager) (t : Handle)
    (name path : String) (_g : Option Handle) : Except AudioError AudioManager :=
  if m.initialized then
    match m.tracks.resolve t with
    | some _ =>
      if name = "" ∨ path = "" then .error .invalidArgument
      else if decode path then
        .ok { m with tracks := m.tracks.update t fun tr =>
          { tr with layers := putLayer name ⟨path, 1, none⟩ tr.layers } }
      else .error .fileLoad
    | none => .error .invalidHandle
  else .error .notInitialized

/-- Modelled from the spec: `play_track(track)` starts every layer
simultaneously. -/
def playTrack (m : AudioManager) (t : Handle) : Except AudioError AudioManager :=
  if m.initialized then
    match m.tracks.resolve t with
    | some _ => .ok { m with tracks := m.tracks.update t fun tr =>
        { tr with playing := true } }
    | none => .error .invalidHandle
  else .error .notInitialized

/-- Modelled from the spec: `stop_track(track)` stops all layers. -/
def stopTrack (m : AudioManager) (t : Handle) : Except AudioError AudioManager :=
  if m.initialized then
    match m.tracks.resolve t with
    | some _ => .ok { m with tracks := m.tracks.update t fun tr =>
        { tr with playing := false } }
    | none => .error .invalidHandle
  else .error .notInitialized

/-- Helper: the per-group part of the mixer tick. -/
def tickGroup (now : ℚ) (g : Group) : Group :=
  let p := tickFade now g.volume g.fade
  ⟨p.1, p.2⟩

/-- Helper: the per-layer part of the mixer tick. -/
def tickLayer (now : ℚ) (l : Layer) : Layer :=
  let p := tickFade now l.volume l.fade
  ⟨l.sourcePath, p.1, p.2⟩

/-- Modelled from the spec: the periodic mixer tick runs the Fade
Engine's update over every group and every track layer. -/
def mixerTick (now : ℚ) (m : AudioManager) : AudioManager :=
  if m.initialized then
    { m with
      groups := m.groups.mapAll (tickGroup now)
      tracks := m.tracks.mapAll fun tr =>
        { tr with layers := tr.layers.map fun nl => (nl.1, tickLayer now nl.2) } }
  else m

/-- Modelled from the spec: the candidate set of a random-container
selection — with `avoidRepeat` true and pool size > 1 the last selected
index is excluded before drawing uniformly; otherwise all pool indices
are candidates. -/
def candidates (n : Nat) (avoid : Bool) (last : Option Nat) : List Nat :=
  if avoid = true ∧ 1 < n then
    (List.range n).filter fun j => decide (some j ≠ last)
  else List.range n

/-- Modelled from the spec: a selection draws uniformly from the
candidate set; `draw` stands for the random source (reduced modulo the
number of candidates).  An empty pool yields no selection. -/
def selectIndex (n : Nat) (avoid : Bool) (last : Option Nat) (draw : Nat) :
    Option Nat :=
  if n = 0 then none
  else
    let cs := candidates n avoid last
    cs[draw % cs.length]?

/-- Modelled from the spec: the selection-relevant state of a
`RandomSoundContainer` — pool size, the anti-repeat flag and
`lastSelectedIndex`. -/
structure ContainerState where
  poolSize : Nat
  avoidRepeat : Bool
  lastSelected : Option Nat
deriving DecidableEq, Repr

/-- Modelled from the spec: repeated selections, each updating
`lastSelectedIndex`; returns the chosen pool indices in order. -/
def runSelect (c : ContainerState) : List Nat → List Nat
  | [] => []
  | d :: ds =>
    match selectIndex c.poolSize c.avoidRepeat c.lastSelected d with
    | some j => j :: runSelect { c with lastSelected := some j } ds
    | none => []

/-- Modelled from the spec: `RandomSoundContainer = {name, config
(pitch range, avoidRepeat), pool (ordered list of paths),
lastSelectedIndex}`. -/
structure RandomSoundContainer where
  name : String
  pool : List String
  avoidRepeat : Bool
  pitchMin : ℚ
  pitchMax : ℚ
  lastSelected : Option Nat
deriving DecidableEq, Repr

/-- Modelled from the spec: `add_sound(path)` appends to the pool
without loading. -/
def addSound (c : RandomSoundContainer) (p : String) : RandomSoundContainer :=
  { c with pool := c.pool ++ [p] }

/-- Modelled from the spec: `get_sound_count()` reflects the pool size
immediately. -/
def getSoundCount (c : RandomSoundContainer) : Nat := c.pool.length

/-- Modelled from the spec: `get_random_sound() -> Handle` — on an
empty pool it returns the Invalid handle, not an error; on a non-empty
pool it selects an index (anti-repeat policy) and returns the handle
the backend `load` yields for that path. -/
def getRandomSound (load : String → Except AudioError Handle)
    (c : RandomSoundContainer) (draw : Nat) : Except AudioError Handle :=
  match selectIndex c.pool.length c.avoidRepeat c.lastSelected draw with
  | some j =>
    match c.pool[j]? with
    | some p => load p
    | none => .ok Handle.invalid
  | none => .ok Handle.invalid

/-- Modelled from the spec: `SpatialParams = {minDistance ≥ 0,
maxDistance > minDistance, rolloff ≥ 0, spatializationEnabled}`
(section 3); positions/distances are abstracted to the scalar listener
distance. -/
structure SpatialParams where
  minDistance : ℝ
  maxDistance : ℝ
  rolloff : ℝ
  spatializationEnabled : Bool

/-- Modelled from the spec: the distance-attenuation model of section
4.5 — gain 1 for `d <= minDistance`, 0 for `d >= maxDistance`,
`1 - ((d - minDistance)/(maxDistance - minDistance))^rolloff` in
between, and constantly 1 when spatialization is disabled. -/
noncomputable def spatialGain (p : SpatialParams) (d : ℝ) : ℝ :=
  if p.spatializationEnabled = false then 1
  else if d ≤ p.minDistance then 1
  else if p.maxDistance ≤ d then 0
  else 1 - ((d - p.minDistance) / (p.maxDistance - p.minDistance)) ^ p.rolloff

/-! Demo states used by concrete witnesses and counterexamples. -/

/-- Demo state: an initialized engine holding one group (handle ⟨0,1⟩)
at volume 1 with no active fade. -/
def demoM : AudioManager :=
  { initialized := true, masterVolume := 1,
    groups := ⟨[⟨1, some ⟨1, none⟩⟩]⟩, sounds := .empty, tracks := .empty }

/-- Demo handle resolving to the group of `demoM`. -/
def demoG : Handle := ⟨0, 1⟩

/-- C10: initialize() returns a boolean indicating whether a new session
was started — true (and is_initialized() becomes true) when the engine is
not initialized, freshly or after any shutdown(); false, with the state
unchanged and still initialized, when the engine is already initialized. -/
theorem initEngine_returns_session_flag (m mI mS : AudioManager)
    (hm : m.initialized = false) (hmI : mI.initialized = true) :
    (initEngine m).1 = true ∧
    (initEngine m).2.isInitialized = true ∧
    (initEngine (shutdown mS)).1 = true ∧
    (initEngine (shutdown mS)).2.isInitialized = true ∧
    (initEngine mI).1 = false ∧
    (initEngine mI).2 = mI ∧
    (initEngine mI).2.isInitialized = true := by
  simp [initEngine, shutdown, AudioManager.uninit, AudioManager.fresh,
    AudioManager.isInitialized, hm, hmI]

/-- Witness for C10 at concrete states. -/
theorem initEngine_returns_session_flag_witness :
    AudioManager.uninit.initialized = false ∧
    AudioManager.fresh.initialized = true ∧
    ((initEngine AudioManager.uninit).1 = true ∧
     (initEngine AudioManager.uninit).2.isInitialized = true ∧
     (initEngine (shutdown demoM)).1 = true ∧
     (initEngine (shutdown demoM)).2.isInitialized = true ∧
     (initEngine AudioManager.fresh).1 = false ∧
     (initEngine AudioManager.fresh).2 = AudioManager.fresh ∧
     (initEngine AudioManager.fresh).2.isInitialized = true) :=
  ⟨rfl, rfl, initEngine_returns_session_flag AudioManager.uninit AudioManager.fresh demoM rfl rfl⟩

theorem initEngine_initialized (m : AudioManager) :
    (initEngine m).2.initialized = true := by
  by_cases h : m.initialized <;> simp [initEngine, AudioManager.fresh, h]

/-- C2: every mutating or query call raises NotInitialized before
initialize() has succeeded or after shutdown(); after a successful
initialize() (including the one performed by opening an AudioSession)
the same call succeeds, and after AudioSession.close() it raises
NotInitialized again. -/
theorem notInitialized_before_init_after_shutdown (m mI mS : AudioManager)
    (v target dur now : ℚ) (g h t : Handle) (name path : String)
    (decode : String → Bool) (hm : m.initialized = false) :
    setMasterVolume m v = .error .notInitialized ∧
    getMasterVolume m = .error .notInitialized ∧
    createGroup m = .error .notInitialized ∧
    setGroupVolume m g v = .error .notInitialized ∧
    getGroupVolume m g = .error .notInitialized ∧
    fadeGroup m g target dur now = .error .notInitialized ∧
    loadSound decode m path none = .error .notInitialized ∧
    playSound m h = .error .notInitialized ∧
    stopSound m h = .error .notInitialized ∧
    isSoundPlaying m h = .error .notInitialized ∧
    createTrack m = .error .notInitialized ∧
    playTrack m t = .error .notInitialized ∧
    addLayer decode m t name path none = .error .notInitialized ∧
    (setMasterVolume (initEngine mI).2 v).isOk = true ∧
    (setMasterVolume (sessionOpen mI) v).isOk = true ∧
    setMasterVolume (shutdown mS) v = .error .notInitialized ∧
    setMasterVolume (sessionClose mS) v = .error .notInitialized := by
  refine ⟨?_, ?_, ?_, ?_, ?_, ?_, ?_, ?_, ?_, ?_, ?_, ?_, ?_, ?_, ?_, ?_, ?_⟩ <;>
    simp [setMasterVolume, getMasterVolume, createGroup, setGroupVolume,
      getGroupVolume, fadeGroup, loadSound, playSound, stopSound,
      isSoundPlaying, createTrack, playTrack, addLayer, shutdown,
      sessionClose, sessionOpen, AudioManager.uninit, Except.isOk,
      Except.toBool, initEngine_initialized, hm]

/-- Witness for C2 at concrete states. -/
theorem notInitialized_before_init_after_shutdown_witness :
    AudioManager.uninit.initialized = false ∧
    (setMasterVolume AudioManager.uninit (1/2) = .error .notInitialized ∧
     getMasterVolume AudioManager.uninit = .error .notInitialized ∧
     createGroup AudioManager.uninit = .error .notInitialized ∧
     setGroupVolume AudioManager.uninit demoG (1/2) = .error .notInitialized ∧
     getGroupVolume AudioManager.uninit demoG = .error .notInitialized ∧
     fadeGroup AudioManager.uninit demoG 1 2 0 = .error .notInitialized ∧
     loadSound (fun _ => true) AudioManager.uninit "hit.wav" none = .error .notInitialized ∧
     playSound AudioManager.uninit demoG = .error .notInitialized ∧
     stopSound AudioManager.uninit demoG = .error .notInitialized ∧
     isSoundPlaying AudioManager.uninit demoG = .error .notInitialized ∧
     createTrack AudioManager.uninit = .error .notInitialized ∧
     playTrack AudioManager.uninit demoG = .error .notInitialized ∧
     addLayer (fun _ => true) AudioManager.uninit demoG "melody" "a.wav" none = .error .notInitialized ∧
     (setMasterVolume (initEngine demoM).2 (1/2)).isOk = true ∧
     (setMasterVolume (sessionOpen demoM) (1/2)).isOk = true ∧
     setMasterVolume (shutdown demoM) (1/2) = .error .notInitialized ∧
     setMasterVolume (sessionClose demoM) (1/2) = .error .notInitialized) :=
  ⟨rfl, notInitialized_before_init_after_shutdown AudioManager.uninit demoM demoM
    (1/2) 1 2 0 demoG demoG demoG "melody" "a.wav" (fun _ => true) rfl⟩

/-- C1 counterexample: `load_sound` with a valid path and an invalid
group handle does not raise InvalidHandle — per the repository's own
error-handling test the invalid group is silently ignored — refuting the
claim that every operation taking a handle, including load_sound's
optional group argument, raises InvalidHandle on an invalid handle. -/
theorem loadSound_invalid_group_no_error :
    loadSound (fun _ => true) AudioManager.fresh "hit.wav" (some ⟨7, 3⟩) ≠
      Except.error AudioError.invalidHandle := by
  intro hc
  exact Except.noConfusion hc

/-- C1 amended: on an initialized engine, every client-facing operation
taking a handle raises InvalidHandle when the handle fails registry
validation — except load_sound's optional group argument, which is
silently ignored (the call behaves exactly as if no group were passed,
the sound falling back to the master group). -/
theorem invalidHandle_raised_on_all_ops (m : AudioManager) (hg hs ht : Handle)
    (v target dur now : ℚ) (p : Vec3) (name path : String)
    (decode : String → Bool) (hm : m.initialized = true)
    (h1 : m.groups.valid hg = false)
    (h2 : m.sounds.valid hs = false)
    (h3 : m.tracks.valid ht = false) :
    playTrack m ht = .error .invalidHandle ∧
    stopTrack m ht = .error .invalidHandle ∧
    addLayer decode m ht name path none = .error .invalidHandle ∧
    playSound m hs = .error .invalidHandle ∧
    playSoundAt m hs p = .error .invalidHandle ∧
    stopSound m hs = .error .invalidHandle ∧
    isSoundPlaying m hs = .error .invalidHandle ∧
    setSoundVolume m hs v = .error .invalidHandle ∧
    setSoundPosition m hs p = .error .invalidHandle ∧
    destroySound m hs = .error .invalidHandle ∧
    setGroupVolume m hg v = .error .invalidHandle ∧
    getGroupVolume m hg = .error .invalidHandle ∧
    fadeGroup m hg target dur now = .error .invalidHandle ∧
    destroyGroup m hg = .error .invalidHandle ∧
    loadSound decode m path (some hg) = loadSound decode m path none := by
  have e1 := (Registry.valid_false_iff m.groups hg).1 h1
  have e2 := (Registry.valid_false_iff m.sounds hs).1 h2
  have e3 := (Registry.valid_false_iff m.tracks ht).1 h3
  refine ⟨?_, ?_, ?_, ?_, ?_, ?_, ?_, ?_, ?_, ?_, ?_, ?_, ?_, ?_, ?_⟩ <;>
    simp [playTrack, stopTrack, addLayer, playSound, playSoundAt, stopSound,
      isSoundPlaying, setSoundVolume, setSoundPosition, destroySound,
      setGroupVolume, getGroupVolume, fadeGroup, destroyGroup, loadSound,
      hm, h1, e1, e2, e3]

/-- Witness for C1's amended theorem at a concrete initialized engine
and concrete never-allocated handles. -/
theorem invalidHandle_raised_on_all_ops_witness :
    (AudioManager.fresh.initialized = true ∧
     AudioManager.fresh.groups.valid ⟨7, 3⟩ = false ∧
     AudioManager.fresh.sounds.valid ⟨8, 2⟩ = false ∧
     AudioManager.fresh.tracks.valid ⟨9, 1⟩ = false) ∧
    (playTrack AudioManager.fresh ⟨9, 1⟩ = .error .invalidHandle ∧
     stopTrack AudioManager.fresh ⟨9, 1⟩ = .error .invalidHandle ∧
     addLayer (fun _ => true) AudioManager.fresh ⟨9, 1⟩ "melody" "hit.wav" none = .error .invalidHandle ∧
     playSound AudioManager.fresh ⟨8, 2⟩ = .error .invalidHandle ∧
     playSoundAt AudioManager.fresh ⟨8, 2⟩ ⟨0, 0, 0⟩ = .error .invalidHandle ∧
     stopSound AudioManager.fresh ⟨8, 2⟩ = .error .invalidHandle ∧
     isSoundPlaying AudioManager.fresh ⟨8, 2⟩ = .error .invalidHandle ∧
     setSoundVolume AudioManager.fresh ⟨8, 2⟩ (1/2) = .error .invalidHandle ∧
     setSoundPosition AudioManager.fresh ⟨8, 2⟩ ⟨0, 0, 0⟩ = .error .invalidHandle ∧
     destroySound AudioManager.fresh ⟨8, 2⟩ = .error .invalidHandle ∧
     setGroupVolume AudioManager.fresh ⟨7, 3⟩ (1/2) = .error .invalidHandle ∧
     getGroupVolume AudioManager.fresh ⟨7, 3⟩ = .error .invalidHandle ∧
     fadeGroup AudioManager.fresh ⟨7, 3⟩ 1 2 0 = .error .invalidHandle ∧
     destroyGroup AudioManager.fresh ⟨7, 3⟩ = .error .invalidHandle ∧
     loadSound (fun _ => true) AudioManager.fresh "hit.wav" (some ⟨7, 3⟩) =
       loadSound (fun _ => true) AudioManager.fresh "hit.wav" none) :=
  ⟨⟨rfl, rfl, rfl, rfl⟩,
   invalidHandle_raised_on_all_ops AudioManager.fresh ⟨7, 3⟩ ⟨8, 2⟩ ⟨9, 1⟩
     (1/2) 1 2 0 ⟨0, 0, 0⟩ "melody" "hit.wav" (fun _ => true) rfl rfl rfl rfl⟩

/-- C4: fade_group with duration exactly zero is accepted without
raising any error and the group's volume jumps to the fade target
immediately (a subsequent get_group_volume returns the target); only a
strictly negative duration is a caller error (InvalidArgument). -/
theorem fadeGroup_zero_duration_jumps (m m1 : AudioManager) (g : Handle)
    (gr : Group) (target dur now : ℚ)
    (hm : m.initialized = true) (hg : m.groups.resolve g = some gr)
    (hneg : dur < 0)
    (hzero : fadeGroup m g target 0 now = .ok m1) :
    (fadeGroup m g target 0 now).isOk = true ∧
    getGroupVolume m1 g = .ok target ∧
    fadeGroup m g target dur now = .error .invalidArgument := by
  have hfe : fadeGroup m g target 0 now =
      .ok { m with groups := m.groups.update g fun _gr => ⟨target, none⟩ } := by
    simp [fadeGroup, hm, hg]
  rw [hfe] at hzero
  have hm1 := (Except.ok.inj hzero).symm
  subst hm1
  refine ⟨by rw [hfe]; rfl, ?_, by simp [fadeGroup, hm, hg, hneg]⟩
  simp [getGroupVolume, hm, Registry.resolve_update, hg]

/-- Witness for C4 at the demo engine (target 1, negative duration -1). -/
theorem fadeGroup_zero_duration_jumps_witness :
    (demoM.initialized = true ∧
     demoM.groups.resolve demoG = some ⟨1, none⟩ ∧
     (-1 : ℚ) < 0 ∧
     fadeGroup demoM demoG 1 0 0 =
       .ok { demoM with groups := demoM.groups.update demoG fun _gr => ⟨1, none⟩ }) ∧
    ((fadeGroup demoM demoG 1 0 0).isOk = true ∧
     getGroupVolume { demoM with groups := demoM.groups.update demoG fun _gr => ⟨1, none⟩ } demoG = .ok 1 ∧
     fadeGroup demoM demoG 1 (-1) 0 = .error .invalidArgument) :=
  ⟨⟨rfl, rfl, by norm_num, rfl⟩,
   fadeGroup_zero_duration_jumps demoM
     { demoM with groups := demoM.groups.update demoG fun _gr => ⟨1, none⟩ }
     demoG ⟨1, none⟩ 1 (-1) 0 rfl rfl (by norm_num) rfl⟩

/-- C5 counterexample: after set_group_volume(g, 5.0) on the demo
engine, get_group_volume(g) returns 1.0 (the upper clamp documented by
the volume-clamping test), not 5.0 as the claim states. -/
theorem setGroupVolume_five_clamped :
    (setGroupVolume demoM demoG 5).bind (fun m1 => getGroupVolume m1 demoG) =
      .ok 1 ∧
    (Except.ok (1 : ℚ) : Except AudioError ℚ) ≠ .ok 5 := by
  refine ⟨rfl, fun hc => ?_⟩
  have h15 : (1 : ℚ) = 5 := Except.ok.inj hc
  norm_num at h15

/-- C5 amended: set_group_volume clamps the requested volume to [0, 1]
at set time — values below 0 are stored as 0 and values above 1.0 as
1.0 — so a subsequent get_group_volume returns min(1, max(0, v)); in
particular after set_group_volume(g, 5.0), get_group_volume(g) = 1.0. -/
theorem setGroupVolume_clamps_to_unit (m m1 : AudioManager) (g : Handle)
    (gr : Group) (v : ℚ) (hm : m.initialized = true)
    (hg : m.groups.resolve g = some gr)
    (hset : setGroupVolume m g v = .ok m1) :
    getGroupVolume m1 g = .ok (min 1 (max 0 v)) := by
  have hfe : setGroupVolume m g v =
      .ok { m with groups := m.groups.update g fun _gr => ⟨clamp01 v, none⟩ } := by
    simp [setGroupVolume, hm, hg]
  rw [hfe] at hset
  have hm1 := (Except.ok.inj hset).symm
  subst hm1
  simp [getGroupVolume, hm, Registry.resolve_update, hg, clamp01]

/-- Witness for C5's amended theorem: setting volume 5.0 stores the
clamp and get_group_volume reads back 1.0. -/
theorem setGroupVolume_clamps_to_unit_witness :
    (demoM.initialized = true ∧
     demoM.groups.resolve demoG = some ⟨1, none⟩ ∧
     setGroupVolume demoM demoG 5 =
       .ok { demoM with groups := demoM.groups.update demoG fun _gr => ⟨clamp01 5, none⟩ }) ∧
    getGroupVolume { demoM with groups := demoM.groups.update demoG fun _gr => ⟨clamp01 5, none⟩ } demoG =
      .ok (min 1 (max 0 5)) ∧
    min (1 : ℚ) (max 0 5) = 1 :=
  ⟨⟨rfl, rfl, rfl⟩,
   setGroupVolume_clamps_to_unit demoM
     { demoM with groups := demoM.groups.update demoG fun _gr => ⟨clamp01 5, none⟩ }
     demoG ⟨1, none⟩ 5 rfl rfl rfl,
   rfl⟩

/-- Demo state: an initialized engine holding one group (handle ⟨0,1⟩)
at volume 0, ready for a fade toward 1. -/
def demoMLow : AudioManager :=
  { initialized := true, masterVolume := 1,
    groups := ⟨[⟨1, some ⟨0, none⟩⟩]⟩, sounds := .empty, tracks := .empty }

/-- C3: each mixer tick at time `now` sets a fading volume to the target
and removes the fade state when `now - startTime >= duration` (so after
waiting at least the duration, get_group_volume returns the fade target
and further ticks leave it unchanged), and otherwise sets it to
`lerp(start, target, (now - startTime)/duration)`; with no active fade a
tick leaves the volume untouched. -/
theorem fadeEngine_tick_semantics (m m1 : AudioManager) (g : Handle)
    (gr : Group) (target dur now0 now nowLate nowAgain v v2 v3 : ℚ)
    (f f2 : FadeState)
    (hm : m.initialized = true) (hg : m.groups.resolve g = some gr)
    (hdur : 0 < dur)
    (hfade : fadeGroup m g target dur now0 = .ok m1)
    (hdone : f.duration ≤ now - f.startTime)
    (hrun : now - f2.startTime < f2.duration)
    (hlate : dur ≤ nowLate - now0)
    (hmid : now - now0 < dur) :
    tickFade now v (some f) = (f.targetVolume, none) ∧
    tickFade now v2 (some f2) =
      (lerp f2.startVolume f2.targetVolume ((now - f2.startTime) / f2.duration), some f2) ∧
    tickFade now v3 none = (v3, none) ∧
    getGroupVolume (mixerTick nowLate m1) g = .ok target ∧
    getGroupVolume (mixerTick nowAgain (mixerTick nowLate m1)) g = .ok target ∧
    getGroupVolume (mixerTick now m1) g =
      .ok (lerp gr.volume target ((now - now0) / dur)) := by
  have hfe : fadeGroup m g target dur now0 =
      .ok { m with groups := m.groups.update g fun _gr =>
        ⟨gr.volume, some ⟨gr.volume, target, now0, dur⟩⟩ } := by
    simp [fadeGroup, hm, hg, lt_asymm hdur, hdur.ne']
  rw [hfe] at hfade
  have hm1 := (Except.ok.inj hfade).symm
  subst hm1
  have hmid' : ¬ dur ≤ now - now0 := not_le.mpr hmid
  have hrun' : ¬ f2.duration ≤ now - f2.startTime := not_le.mpr hrun
  refine ⟨by simp [tickFade, hdone], by simp [tickFade, hrun'], by simp [tickFade],
    ?_, ?_, ?_⟩ <;>
    simp [getGroupVolume, mixerTick, hm, Registry.resolve_mapAll,
      Registry.resolve_update, hg, tickGroup, tickFade, hlate, hmid']

/-- Witness for C3: a 60-second fade of the demo group from 0 toward 1,
ticked at 0.2 seconds (volume 1/300, still near 0), at 60 seconds
(volume exactly 1, fade cleared) and once more after that (unchanged). -/
theorem fadeEngine_tick_semantics_witness :
    (demoMLow.initialized = true ∧
     demoMLow.groups.resolve demoG = some ⟨0, none⟩ ∧
     (0 : ℚ) < 60 ∧
     fadeGroup demoMLow demoG 1 60 0 =
       .ok { demoMLow with groups := demoMLow.groups.update demoG fun _gr =>
         ⟨0, some ⟨0, 1, 0, 60⟩⟩ } ∧
     (FadeState.mk 0 1 0 (1/10)).duration ≤ (1/5 : ℚ) - (FadeState.mk 0 1 0 (1/10)).startTime ∧
     (1/5 : ℚ) - (FadeState.mk 0 1 0 60).startTime < (FadeState.mk 0 1 0 60).duration ∧
     (60 : ℚ) ≤ 60 - 0 ∧
     (1/5 : ℚ) - 0 < 60) ∧
    (tickFade (1/5) 0 (some ⟨0, 1, 0, 1/10⟩) = ((1 : ℚ), none) ∧
     tickFade (1/5) 0 (some ⟨0, 1, 0, 60⟩) =
       (lerp 0 1 (((1/5 : ℚ) - 0) / 60), some ⟨0, 1, 0, 60⟩) ∧
     tickFade (1/5) (1/2) none = ((1/2 : ℚ), none) ∧
     getGroupVolume (mixerTick 60
       { demoMLow with groups := demoMLow.groups.update demoG fun _gr =>
         ⟨0, some ⟨0, 1, 0, 60⟩⟩ }) demoG = .ok 1 ∧
     getGroupVolume (mixerTick 120 (mixerTick 60
       { demoMLow with groups := demoMLow.groups.update demoG fun _gr =>
         ⟨0, some ⟨0, 1, 0, 60⟩⟩ })) demoG = .ok 1 ∧
     getGroupVolume (mixerTick (1/5)
       { demoMLow with groups := demoMLow.groups.update demoG fun _gr =>
         ⟨0, some ⟨0, 1, 0, 60⟩⟩ }) demoG =
       .ok (lerp 0 1 (((1/5 : ℚ) - 0) / 60))) ∧
    lerp 0 1 (((1/5 : ℚ) - 0) / 60) = 1/300 ∧
    (1/300 : ℚ) < 1/10 := by
  refine ⟨⟨rfl, rfl, by norm_num, rfl, by norm_num, by norm_num, by norm_num, by norm_num⟩,
    ?_, by norm_num [lerp], by norm_num⟩
  have h := fadeEngine_tick_semantics demoMLow
    { demoMLow with groups := demoMLow.groups.update demoG fun _gr =>
      ⟨0, some ⟨0, 1, 0, 60⟩⟩ }
    demoG ⟨0, none⟩ 1 60 0 (1/5) 60 120 0 0 (1/2) ⟨0, 1, 0, 1/10⟩ ⟨0, 1, 0, 60⟩
    rfl rfl (by norm_num) rfl (by norm_num) (by norm_num) (by norm_num) (by norm_num)
  simpa using h

/-- C7: play_sound(h, posA) then play_sound(h, posB) creates a second
PlaybackInstance without stopping or modifying the first, the resource
reports playing while either instance runs, and a single stop_sound(h)
stops all instances, after which is_sound_playing(h) is false. -/
theorem playSound_overlap_instances (m m1 m2 m3 : AudioManager) (h : Handle)
    (res : SoundResource) (posA posB : Vec3)
    (hm : m.initialized = true)
    (hres : m.sounds.resolve h = some res)
    (h1 : playSoundAt m h posA = .ok m1)
    (h2 : playSoundAt m1 h posB = .ok m2)
    (h3 : stopSound m2 h = .ok m3) :
    m1.sounds.resolve h =
      some { res with instances := res.instances ++ [⟨posA, .playing⟩] } ∧
    m2.sounds.resolve h =
      some { res with instances :=
        res.instances ++ [⟨posA, .playing⟩] ++ [⟨posB, .playing⟩] } ∧
    isSoundPlaying m1 h = .ok true ∧
    isSoundPlaying m2 h = .ok true ∧
    isSoundPlaying m3 h = .ok false := by
  have hfe1 : playSoundAt m h posA =
      .ok { m with sounds := m.sounds.update h fun r =>
        { r with instances := r.instances ++ [⟨posA, .playing⟩] } } := by
    simp [playSoundAt, hm, hres]
  rw [hfe1] at h1
  have hm1 := (Except.ok.inj h1).symm
  subst hm1
  have hres1 : ({ m with sounds := m.sounds.update h fun r =>
      { r with instances := r.instances ++ [⟨posA, .playing⟩] } } :
        AudioManager).sounds.resolve h =
      some { res with instances := res.instances ++ [⟨posA, .playing⟩] } := by
    simp [Registry.resolve_update, hres]
  have hfe2 : playSoundAt { m with sounds := m.sounds.update h fun r =>
      { r with instances := r.instances ++ [⟨posA, .playing⟩] } } h posB =
      .ok { m with sounds := (m.sounds.update h fun r =>
        { r with instances := r.instances ++ [⟨posA, .playing⟩] }).update h fun r =>
        { r with instances := r.instances ++ [⟨posB, .playing⟩] } } := by
    simp [playSoundAt, hm, hres1]
  rw [hfe2] at h2
  have hm2 := (Except.ok.inj h2).symm
  subst hm2
  have hres2 : ({ m with sounds := (m.sounds.update h fun r =>
      { r with instances := r.instances ++ [⟨posA, .playing⟩] }).update h fun r =>
      { r with instances := r.instances ++ [⟨posB, .playing⟩] } } :
        AudioManager).sounds.resolve h =
      some { res with instances :=
        res.instances ++ [⟨posA, .playing⟩] ++ [⟨posB, .playing⟩] } := by
    simp [Registry.resolve_update, hres]
  have hfe3 : stopSound { m with sounds := (m.sounds.update h fun r =>
      { r with instances := r.instances ++ [⟨posA, .playing⟩] }).update h fun r =>
      { r with instances := r.instances ++ [⟨posB, .playing⟩] } } h =
      .ok { m with sounds := ((m.sounds.update h fun r =>
        { r with instances := r.instances ++ [⟨posA, .playing⟩] }).update h fun r =>
        { r with instances := r.instances ++ [⟨posB, .playing⟩] }).update h fun r =>
        { r with instances := r.instances.map fun i => { i with state := .stopped } } } := by
    simp [stopSound, hm, hres2]
  rw [hfe3] at h3
  have hm3 := (Except.ok.inj h3).symm
  subst hm3
  refine ⟨hres1, hres2, ?_, ?_, ?_⟩ <;>
    simp [isSoundPlaying, hm, Registry.resolve_update, hres,
      PlaybackInstance.isPlaying, List.any_map, Function.comp]

/-- Demo state: an initialized engine holding one loaded sound resource
(handle ⟨0,1⟩) with no live instances. -/
def demoS : AudioManager :=
  { initialized := true, masterVolume := 1, groups := .empty,
    sounds := ⟨[⟨1, some ⟨"hit.wav", none, 1, ⟨0, 0, 0⟩, []⟩⟩]⟩,
    tracks := .empty }

/-- Demo handle resolving to the sound of `demoS`. -/
def demoH : Handle := ⟨0, 1⟩

/-- Demo state after playing demoS's sound at position (5,0,0). -/
def demoS1 : AudioManager :=
  { demoS with sounds := demoS.sounds.update demoH fun r =>
    { r with instances := r.instances ++ [⟨⟨5, 0, 0⟩, .playing⟩] } }

/-- Demo state after additionally playing the same sound at (10,0,0). -/
def demoS2 : AudioManager :=
  { demoS1 with sounds := demoS1.sounds.update demoH fun r =>
    { r with instances := r.instances ++ [⟨⟨10, 0, 0⟩, .playing⟩] } }

/-- Demo state after a single stop_sound on the same handle. -/
def demoS3 : AudioManager :=
  { demoS2 with sounds := demoS2.sounds.update demoH fun r =>
    { r with instances := r.instances.map fun i => { i with state := .stopped } } }

/-- Witness for C7 at the demo engine: two overlapping instances at
distinct positions, then one stop_sound silencing both. -/
theorem playSound_overlap_instances_witness :
    (demoS.initialized = true ∧
     demoS.sounds.resolve demoH = some ⟨"hit.wav", none, 1, ⟨0, 0, 0⟩, []⟩ ∧
     playSoundAt demoS demoH ⟨5, 0, 0⟩ = .ok demoS1 ∧
     playSoundAt demoS1 demoH ⟨10, 0, 0⟩ = .ok demoS2 ∧
     stopSound demoS2 demoH = .ok demoS3) ∧
    (demoS1.sounds.resolve demoH =
       some ⟨"hit.wav", none, 1, ⟨0, 0, 0⟩, [⟨⟨5, 0, 0⟩, .playing⟩]⟩ ∧
     demoS2.sounds.resolve demoH =
       some ⟨"hit.wav", none, 1, ⟨0, 0, 0⟩,
         [⟨⟨5, 0, 0⟩, .playing⟩, ⟨⟨10, 0, 0⟩, .playing⟩]⟩ ∧
     isSoundPlaying demoS1 demoH = .ok true ∧
     isSoundPlaying demoS2 demoH = .ok true ∧
     isSoundPlaying demoS3 demoH = .ok false) := by
  refine ⟨⟨rfl, rfl, rfl, rfl, rfl⟩, ?_⟩
  have h := playSound_overlap_instances demoS demoS1 demoS2 demoS3 demoH
    ⟨"hit.wav", none, 1, ⟨0, 0, 0⟩, []⟩ ⟨5, 0, 0⟩ ⟨10, 0, 0⟩
    rfl rfl rfl rfl rfl
  simpa using h

theorem candidates_ne_nil (n : Nat) (avoid : Bool) (last : Option Nat)
    (hn : 0 < n) : candidates n avoid last ≠ [] := by
  unfold candidates
  by_cases hc : avoid = true ∧ 1 < n
  · rw [if_pos hc]
    intro hnil
    by_cases h00 : last = some 0
    · have h1 : 1 ∈ (List.range n).filter fun j => decide (some j ≠ last) := by
        refine List.mem_filter.2 ⟨List.mem_range.2 hc.2, ?_⟩
        rw [h00]
        decide
      rw [hnil] at h1
      exact absurd h1 (List.not_mem_nil 1)
    · have h0 : 0 ∈ (List.range n).filter fun j => decide (some j ≠ last) := by
        refine List.mem_filter.2 ⟨List.mem_range.2 hn, ?_⟩
        simp only [decide_eq_true_eq]
        exact fun he => h00 he.symm
      rw [hnil] at h0
      exact absurd h0 (List.not_mem_nil 0)
  · rw [if_neg hc]
    intro hnil
    have := List.mem_range.2 hn
    rw [hnil] at this
    exact absurd this (List.not_mem_nil 0)

theorem selectIndex_mem (n : Nat) (avoid : Bool) (last : Option Nat)
    (d j : Nat) (hsel : selectIndex n avoid last d = some j) :
    j ∈ candidates n avoid last := by
  unfold selectIndex at hsel
  by_cases hn : n = 0
  · rw [if_pos hn] at hsel; exact absurd hsel (by simp)
  · rw [if_neg hn] at hsel
    exact List.getElem?_mem hsel

theorem selectIndex_ne_last (n : Nat) (d i j : Nat) (hn : 1 < n)
    (hsel : selectIndex n true (some i) d = some j) : j ≠ i := by
  have hmem := selectIndex_mem n true (some i) d j hsel
  unfold candidates at hmem
  rw [if_pos ⟨rfl, hn⟩] at hmem
  have := (List.mem_filter.1 hmem).2
  simpa using this

theorem selectIndex_isSome (n : Nat) (avoid : Bool) (last : Option Nat)
    (d : Nat) (hn : 0 < n) : (selectIndex n avoid last d).isSome = true := by
  unfold selectIndex
  rw [if_neg (Nat.pos_iff_ne_zero.1 hn)]
  have hne := candidates_ne_nil n avoid last hn
  have hlen : 0 < (candidates n avoid last).length := List.length_pos.2 hne
  have hlt : d % (candidates n avoid last).length < (candidates n avoid last).length :=
    Nat.mod_lt _ hlen
  simp [List.getElem?_eq_getElem hlt]

theorem runSelect_head_ne (c : ContainerState) (ds : List Nat) (j k : Nat)
    (hav : c.avoidRepeat = true) (hn : 1 < c.poolSize)
    (hk : (runSelect { c with lastSelected := some j } ds).head? = some k) :
    k ≠ j := by
  cases ds with
  | nil => exact absurd hk (by simp [runSelect])
  | cons d ds =>
    unfold runSelect at hk
    cases hs : selectIndex c.poolSize c.avoidRepeat (some j) d with
    | none => rw [hs] at hk; exact absurd hk (by simp)
    | some j2 =>
      rw [hs] at hk
      have hkj : j2 = k := by simpa using hk
      subst hkj
      rw [hav] at hs
      exact selectIndex_ne_last c.poolSize d j j2 hn hs

theorem runSelect_chain (ds : List Nat) : ∀ c : ContainerState,
    c.avoidRepeat = true → 1 < c.poolSize →
    List.Chain' (fun a b => a ≠ b) (runSelect c ds) := by
  induction ds with
  | nil => intro c _ _; simp [runSelect]
  | cons d ds ih =>
    intro c hav hn
    unfold runSelect
    cases hs : selectIndex c.poolSize c.avoidRepeat c.lastSelected d with
    | none => simp
    | some j =>
      rw [List.chain'_cons']
      refine ⟨?_, ih _ hav hn⟩
      intro y hy
      exact (runSelect_head_ne c ds j y hav hn (Option.mem_def.1 hy)).symm

/-- C8: with avoidRepeat = true and pool size > 1, every selection
excludes lastSelectedIndex from the candidate set, so two consecutive
selections never return the same pool index, for arbitrarily many
consecutive draws; with pool size 1 repetition is allowed (the only
index is returned again). -/
theorem avoidRepeat_never_consecutive (c : ContainerState) (ds : List Nat)
    (d i j : Nat) (hav : c.avoidRepeat = true) (hn : 1 < c.poolSize)
    (hlast : c.lastSelected = some i)
    (hsel : selectIndex c.poolSize c.avoidRepeat c.lastSelected d = some j) :
    j ≠ i ∧
    (selectIndex c.poolSize c.avoidRepeat c.lastSelected d).isSome = true ∧
    List.Chain' (fun a b => a ≠ b) (runSelect c ds) ∧
    selectIndex 1 true (some 0) d = some 0 := by
  refine ⟨?_, selectIndex_isSome _ _ _ _ (Nat.lt_of_lt_of_le Nat.zero_lt_one hn.le),
    runSelect_chain ds c hav hn, ?_⟩
  · rw [hav, hlast] at hsel
    exact selectIndex_ne_last c.poolSize d i j hn hsel
  · simp [selectIndex, candidates, Nat.mod_one]

/-- Witness for C8: a two-element pool with avoidRepeat, last index 0;
the next selection is index 1 and a run of draws never repeats. -/
theorem avoidRepeat_never_consecutive_witness :
    ((ContainerState.mk 2 true (some 0)).avoidRepeat = true ∧
     1 < (ContainerState.mk 2 true (some 0)).poolSize ∧
     (ContainerState.mk 2 true (some 0)).lastSelected = some 0 ∧
     selectIndex 2 true (some 0) 0 = some 1) ∧
    ((1 : Nat) ≠ 0 ∧
     (selectIndex 2 true (some 0) 0).isSome = true ∧
     List.Chain' (fun a b => a ≠ b) (runSelect ⟨2, true, some 0⟩ [0, 1, 2, 3]) ∧
     selectIndex 1 true (some 0) 0 = some 0) := by
  refine ⟨⟨rfl, by norm_num, rfl, by decide⟩, ?_⟩
  have h := avoidRepeat_never_consecutive ⟨2, true, some 0⟩ [0, 1, 2, 3] 0 0 1
    rfl (by norm_num) rfl (by decide)
  simpa using h

/-- C9: get_random_sound() on a RandomSoundContainer whose pool is empty
returns the Invalid handle (packed value 0) and does not raise any
exception (the result is an ok value, never an error). -/
theorem getRandomSound_empty_pool (load : String → Except AudioError Handle)
    (c : RandomSoundContainer) (draw : Nat) (hempty : c.pool = []) :
    getRandomSound load c draw = .ok Handle.invalid ∧
    Handle.invalid.value = 0 := by
  refine ⟨?_, rfl⟩
  simp [getRandomSound, selectIndex, hempty]

/-- Witness for C9 at a concrete empty container. -/
theorem getRandomSound_empty_pool_witness :
    (RandomSoundContainer.mk "empty" [] true (9/10) (11/10) none).pool = [] ∧
    (getRandomSound (fun _ => .ok ⟨1, 1⟩)
       ⟨"empty", [], true, 9/10, 11/10, none⟩ 5 = .ok Handle.invalid ∧
     Handle.invalid.value = 0) :=
  ⟨rfl, getRandomSound_empty_pool (fun _ => .ok ⟨1, 1⟩)
    ⟨"empty", [], true, 9/10, 11/10, none⟩ 5 rfl⟩

theorem spatialGain_antitone (p : SpatialParams) (d1 d2 : ℝ)
    (hmm : p.minDistance < p.maxDistance) (hr : 0 ≤ p.rolloff)
    (h12 : d1 ≤ d2) : spatialGain p d2 ≤ spatialGain p d1 := by
  by_cases hen : p.spatializationEnabled = false
  · simp [spatialGain, hen]
  · have hba : 0 < p.maxDistance - p.minDistance := sub_pos.2 hmm
    unfold spatialGain
    rw [if_neg hen, if_neg hen]
    by_cases h2a : d2 ≤ p.minDistance
    · rw [if_pos h2a, if_pos (le_trans h12 h2a)]
    · rw [if_neg h2a]
      have h2a' : p.minDistance < d2 := lt_of_not_le h2a
      by_cases h2b : p.maxDistance ≤ d2
      · rw [if_pos h2b]
        by_cases h1a : d1 ≤ p.minDistance
        · rw [if_pos h1a]; norm_num
        · rw [if_neg h1a]
          by_cases h1b : p.maxDistance ≤ d1
          · rw [if_pos h1b]
          · rw [if_neg h1b]
            have h1a' : p.minDistance < d1 := lt_of_not_le h1a
            have h1b' : d1 < p.maxDistance := lt_of_not_le h1b
            have ht0 : 0 ≤ (d1 - p.minDistance) / (p.maxDistance - p.minDistance) :=
              div_nonneg (by linarith) hba.le
            have ht1 : (d1 - p.minDistance) / (p.maxDistance - p.minDistance) ≤ 1 := by
              rw [div_le_one hba]; linarith
            have hpow := Real.rpow_le_one ht0 ht1 hr
            linarith
      · rw [if_neg h2b]
        have h2b' : d2 < p.maxDistance := lt_of_not_le h2b
        by_cases h1a : d1 ≤ p.minDistance
        · rw [if_pos h1a]
          have ht0 : 0 ≤ (d2 - p.minDistance) / (p.maxDistance - p.minDistance) :=
            div_nonneg (by linarith) hba.le
          have hpow := Real.rpow_nonneg ht0 p.rolloff
          linarith
        · rw [if_neg h1a]
          have h1a' : p.minDistance < d1 := lt_of_not_le h1a
          have h1b : d1 < p.maxDistance := lt_of_le_of_lt h12 h2b'
          rw [if_neg (not_le.2 h1b)]
          have ht0 : 0 ≤ (d1 - p.minDistance) / (p.maxDistance - p.minDistance) :=
            div_nonneg (by linarith) hba.le
          have hmono : (d1 - p.minDistance) / (p.maxDistance - p.minDistance) ≤
              (d2 - p.minDistance) / (p.maxDistance - p.minDistance) := by
            gcongr
          have hpow := Real.rpow_le_rpow ht0 hmono hr
          linarith

/-- C6: with spatialization enabled and minDistance < maxDistance,
rolloff >= 0, the spatial gain is 1.0 whenever d <= minDistance, 0.0
whenever d >= maxDistance, and in between equals
`1 - ((d - minDistance)/(maxDistance - minDistance))^rolloff`, which is
monotonic non-increasing in d; with spatialization disabled the gain is
1.0 for every distance. -/
theorem spatialGain_spec (p q : SpatialParams) (da db dc d1 d2 de : ℝ)
    (hmm : p.minDistance < p.maxDistance) (hr : 0 ≤ p.rolloff)
    (hen : p.spatializationEnabled = true)
    (hqe : q.spatializationEnabled = false)
    (hda : da ≤ p.minDistance)
    (hdb1 : p.minDistance < db) (hdb2 : db < p.maxDistance)
    (hdc : p.maxDistance ≤ dc)
    (h12 : d1 ≤ d2) :
    spatialGain p da = 1 ∧
    spatialGain p dc = 0 ∧
    spatialGain p db =
      1 - ((db - p.minDistance) / (p.maxDistance - p.minDistance)) ^ p.rolloff ∧
    spatialGain p d2 ≤ spatialGain p d1 ∧
    spatialGain q de = 1 := by
  have hen' : ¬ p.spatializationEnabled = false := by rw [hen]; decide
  refine ⟨?_, ?_, ?_, spatialGain_antitone p d1 d2 hmm hr h12, by simp [spatialGain, hqe]⟩
  · unfold spatialGain
    rw [if_neg hen', if_pos hda]
  · unfold spatialGain
    rw [if_neg hen', if_neg (not_le.2 (lt_of_lt_of_le hmm hdc)), if_pos hdc]
  · unfold spatialGain
    rw [if_neg hen', if_neg (not_le.2 hdb1), if_neg (not_le.2 hdb2)]

/-- Witness for C6: minDistance 0, maxDistance 1, rolloff 1 (linear
falloff); gain is 1 at distance 0, 1/2 at distance 1/2, 0 at distance 2,
non-increasing between 1/4 and 1/2, and 1 at any distance when
spatialization is disabled. -/
theorem spatialGain_spec_witness :
    ((SpatialParams.mk 0 1 1 true).minDistance <
       (SpatialParams.mk 0 1 1 true).maxDistance ∧
     (0 : ℝ) ≤ (SpatialParams.mk 0 1 1 true).rolloff ∧
     (SpatialParams.mk 0 1 1 true).spatializationEnabled = true ∧
     (SpatialParams.mk 0 1 1 false).spatializationEnabled = false ∧
     (0 : ℝ) ≤ (SpatialParams.mk 0 1 1 true).minDistance ∧
     (SpatialParams.mk 0 1 1 true).minDistance < (1/2 : ℝ) ∧
     (1/2 : ℝ) < (SpatialParams.mk 0 1 1 true).maxDistance ∧
     (SpatialParams.mk 0 1 1 true).maxDistance ≤ (2 : ℝ) ∧
     (1/4 : ℝ) ≤ (1/2 : ℝ)) ∧
    (spatialGain ⟨0, 1, 1, true⟩ 0 = 1 ∧
     spatialGain ⟨0, 1, 1, true⟩ 2 = 0 ∧
     spatialGain ⟨0, 1, 1, true⟩ (1/2) =
       1 - (((1/2 : ℝ) - 0) / (1 - 0)) ^ (1 : ℝ) ∧
     spatialGain ⟨0, 1, 1, true⟩ (1/2) ≤ spatialGain ⟨0, 1, 1, true⟩ (1/4) ∧
     spatialGain ⟨0, 1, 1, false⟩ 7 = 1) ∧
    1 - (((1/2 : ℝ) - 0) / (1 - 0)) ^ (1 : ℝ) = 1/2 := by
  refine ⟨⟨by norm_num, by norm_num, rfl, rfl, by norm_num, by norm_num,
    by norm_num, by norm_num, by norm_num⟩, ?_, ?_⟩
  · have h := spatialGain_spec ⟨0, 1, 1, true⟩ ⟨0, 1, 1, false⟩ 0 (1/2) 2 (1/4) (1/2) 7
      (by norm_num) (by norm_num) rfl rfl (by norm_num) (by norm_num)
      (by norm_num) (by norm_num) (by norm_num)
    simpa using h
  · rw [Real.rpow_one]
    norm_num

end GameAudio
